import Mathlib

/-!
Shallow embedding of the locgen signal-reconciliation code (main.go).

Timestamps are modelled as integers counting nanoseconds, matching the
resolution of Go durations; the Go zero time is modelled by the integer
zero, matching the use of Time.IsZero as an unset marker in the source.
Numeric signal values are modelled as rationals; the source only copies
them and compares them with zero. Diagnostics built with fmt.Errorf and
joined with errors.Join are modelled as a list of Diag values in
occurrence order, one constructor per format string in the source.
-/

namespace Locgen

/-- 500 milliseconds in nanoseconds, the allowedLocationGap constant. -/
def allowedLocationGap : Int := 500000000

/-- 5 minutes in nanoseconds, the futureAllowance constant. -/
def futureAllowance : Int := 300000000000

/-- 500 milliseconds in nanoseconds, the maxLocationTimestampGap constant
of the Store-based file. -/
def maxLocationTimestampGap : Int := 500000000

/-- vss.FieldCurrentLocationLatitude. -/
def FieldCurrentLocationLatitude : String := "currentLocationLatitude"

/-- vss.FieldCurrentLocationLongitude. -/
def FieldCurrentLocationLongitude : String := "currentLocationLongitude"

/-- vss.FieldDIMOAftermarketHDOP. -/
def FieldDIMOAftermarketHDOP : String := "dimoAftermarketHDOP"

/-- The fieldCoordinates constant, name of rows created by ProcessSignals. -/
def fieldCoordinates : String := "currentLocationCoordinates"

/-- The fieldLocation constant, name of rows created by Store.TryFlush. -/
def fieldLocation : String := "currentLocation"

/-- vss.Location: the value carried by a created composite row.  Go zero
values are the defaults. -/
structure Location where
  latitude : ℚ := 0
  longitude : ℚ := 0
  hdop : ℚ := 0
deriving DecidableEq, Repr

/-- The fields of vss.Signal that the source reads or writes. Go zero
values are the defaults. -/
structure Signal where
  tokenID : Nat := 0
  timestamp : Int := 0
  name : String := ""
  valueNumber : ℚ := 0
  valueLocation : Location := {}
  source : String := ""
  producer : String := ""
  cloudEventID : String := ""
deriving DecidableEq, Repr

instance : Inhabited Signal := ⟨{}⟩

/-- One diagnostic, by the fmt.Errorf format string that produces it. -/
inductive Diag where
  | originAt (t : Int)
  | unpairedLatitude (t : Int)
  | unpairedLongitude (t : Int)
  | futureTimestamp (name : String) (t : Int)
deriving DecidableEq, Repr

/-- Indexing signals[i] for an int index, as used by the source under
guards that keep the index in range. -/
def sigAt (signals : List Signal) (i : Int) : Signal :=
  (signals.get? i.toNat).getD {}

/-- Setting drop[i] = true for an int index. -/
def setDrop (d : List Bool) (i : Int) : List Bool :=
  d.set i.toNat true

/-- cmp.Compare and Time.Compare: minus one, zero, or one by order. -/
def goCompare {α : Type} [LinearOrder α] (x y : α) : Ordering :=
  if x < y then .lt else if x = y then .eq else .gt

/-- Lexicographic comparison of character lists by code point, the model
of the byte-wise string comparison performed by cmp.Compare on ASCII
names. -/
def lexCompare : List Char → List Char → Ordering
  | [], [] => .eq
  | [], _ :: _ => .lt
  | _ :: _, [] => .gt
  | a :: as, b :: bs => (goCompare a.toNat b.toNat).then (lexCompare as bs)

/-- cmp.Compare on the two name strings. -/
def strCompare (a b : String) : Ordering :=
  lexCompare a.data b.data

/-- The comparator passed to slices.SortFunc: timestamp first, then name. -/
def cmpSignals (a b : Signal) : Ordering :=
  (goCompare a.timestamp b.timestamp).then (strCompare a.name b.name)

/-- The total preorder induced by the sort comparator. -/
def sigLE (a b : Signal) : Prop := cmpSignals a b ≠ .gt

instance : DecidableRel sigLE := fun a b => by
  unfold sigLE; infer_instance

/-- The ordering stage: slices.SortFunc with the timestamp-then-name
comparator, modelled as a deterministic comparison sort. -/
def sortSignals (signals : List Signal) : List Signal :=
  List.insertionSort sigLE signals

/-- The three roles a location signal name can select; the target of the
lastReference and GetActiveIndex pointer dispatch in the source. -/
inductive LocField where
  | lat
  | lon
  | hdop
deriving DecidableEq, Repr

/-- The lastReference switch of ProcessSignals (and the GetActiveIndex
switch of the Store file, which matches the same three names). -/
def lastReference (signalName : String) : Option LocField :=
  if signalName = FieldCurrentLocationLatitude then some .lat
  else if signalName = FieldCurrentLocationLongitude then some .lon
  else if signalName = FieldDIMOAftermarketHDOP then some .hdop
  else none

/-- The mutable state of the ProcessSignals pass: the diagnostics so far,
the per-index drop markers, the created rows, the three slot indices with
the minus-one sentinel, and the representative timestamp with the zero
sentinel. -/
structure PState where
  errs : List Diag := []
  drop : List Bool := []
  created : List Signal := []
  lastLat : Int := -1
  lastLon : Int := -1
  lastHDOP : Int := -1
  lastTime : Int := 0
deriving DecidableEq, Repr

/-- Reading the slot selected by lastReference. -/
def PState.getRef (s : PState) : LocField → Int
  | .lat => s.lastLat
  | .lon => s.lastLon
  | .hdop => s.lastHDOP

/-- Writing the slot selected by lastReference. -/
def PState.setRef (s : PState) (f : LocField) (i : Int) : PState :=
  match f with
  | .lat => { s with lastLat := i }
  | .lon => { s with lastLon := i }
  | .hdop => { s with lastHDOP := i }

/-- The composite row built by tryCreateLocationSignal: payload-wide
fields from the template, name fieldCoordinates, all else zero. -/
def mkLocationRow (template : Signal) (t : Int) (loc : Location) : Signal :=
  { tokenID := template.tokenID
    timestamp := t
    name := fieldCoordinates
    valueLocation := loc
    source := template.source
    producer := template.producer
    cloudEventID := template.cloudEventID }

/-- The tryCreateLocationSignal closure of ProcessSignals, as a function
of the captured state. -/
def tryCreateLocationSignal (template : Signal) (signals : List Signal)
    (s : PState) : PState :=
  let r1 : Location × Bool × List Bool × List Diag :=
    if s.lastLat ≠ -1 ∧ s.lastLon ≠ -1 then
      let lat := (sigAt signals s.lastLat).valueNumber
      let lon := (sigAt signals s.lastLon).valueNumber
      if lat = 0 ∧ lon = 0 then
        ({}, false, setDrop (setDrop s.drop s.lastLat) s.lastLon,
          s.errs ++ [Diag.originAt s.lastTime])
      else
        ({ latitude := lat, longitude := lon }, true, s.drop, s.errs)
    else if s.lastLat ≠ -1 then
      ({}, false, setDrop s.drop s.lastLat,
        s.errs ++ [Diag.unpairedLatitude s.lastTime])
    else if s.lastLon ≠ -1 then
      ({}, false, setDrop s.drop s.lastLon,
        s.errs ++ [Diag.unpairedLongitude s.lastTime])
    else
      ({}, false, s.drop, s.errs)
  let loc := if s.lastHDOP ≠ -1 then
      { r1.1 with hdop := (sigAt signals s.lastHDOP).valueNumber }
    else r1.1
  let create := r1.2.1 || decide (s.lastHDOP ≠ -1)
  let created := if create then
      s.created ++ [mkLocationRow template s.lastTime loc]
    else s.created
  { errs := r1.2.2.2
    drop := r1.2.2.1
    created := created
    lastLat := -1
    lastLon := -1
    lastHDOP := -1
    lastTime := 0 }

/-- The gap check at the top of the ProcessSignals loop body: flush the
in-progress triple when the current timestamp is at least
allowedLocationGap past the representative timestamp. -/
def gapStage (template : Signal) (signals : List Signal) (s : PState)
    (sig : Signal) : PState :=
  if s.lastTime ≠ 0 ∧ sig.timestamp - s.lastTime ≥ allowedLocationGap then
    tryCreateLocationSignal template signals s
  else s

/-- One iteration of the ProcessSignals loop for index i of the sorted
slice: gap check, future-timestamp guard, exact-duplicate guard, slot
dispatch; in that source order. -/
def stepP (now : Int) (template : Signal) (signals : List Signal)
    (s : PState) (i : Nat) : PState :=
  let sig := sigAt signals (Int.ofNat i)
  let s1 := gapStage template signals s sig
  if sig.timestamp > now + futureAllowance then
    { s1 with
      errs := s1.errs ++ [Diag.futureTimestamp sig.name sig.timestamp]
      drop := setDrop s1.drop (Int.ofNat i) }
  else if 0 < i ∧ sig.name = (sigAt signals (Int.ofNat (i - 1))).name ∧
      sig.timestamp = (sigAt signals (Int.ofNat (i - 1))).timestamp then
    { s1 with drop := setDrop s1.drop (Int.ofNat i) }
  else
    match lastReference sig.name with
    | none => s1
    | some f =>
      let s2 := if s1.getRef f ≠ -1 then
          tryCreateLocationSignal template signals s1
        else s1
      let s3 := s2.setRef f (Int.ofNat i)
      if s3.lastTime = 0 then { s3 with lastTime := sig.timestamp } else s3

/-- The initial state of the pass: an all-false drop array of the input
length, empty sentinels everywhere. -/
def initState (signals : List Signal) : PState :=
  { drop := List.replicate signals.length false }

/-- The state after the first k iterations of the ProcessSignals loop on
the sorted slice. -/
def runUpTo (now : Int) (template : Signal) (signals : List Signal)
    (k : Nat) : PState :=
  (List.range k).foldl (stepP now template signals) (initState signals)

/-- The state after the whole loop and the one final
tryCreateLocationSignal call. -/
def processedState (now : Int) (signals : List Signal) : PState :=
  let template := signals.headI
  let sorted := sortSignals signals
  tryCreateLocationSignal template sorted
    (runUpTo now template sorted sorted.length)

/-- The filtering half of output assembly: the records whose drop marker
is false, in order. -/
def keptOf (sorted : List Signal) (drop : List Bool) : List Signal :=
  ((sorted.zip drop).filter (fun p => !p.2)).map Prod.fst

/-- The records whose drop marker is true, in order. -/
def droppedOf (sorted : List Signal) (drop : List Bool) : List Signal :=
  ((sorted.zip drop).filter (fun p => p.2)).map Prod.fst

/-- The ProcessSignals function: sort, run the loop, flush once more,
then assemble the kept records followed by the created rows, returned
together with the diagnostics. The template row is the first record of
the input in its original order, copied before the in-place sort. -/
def ProcessSignals (now : Int) (signals : List Signal) :
    List Signal × List Diag :=
  if signals.isEmpty then (signals, []) else
  let sorted := sortSignals signals
  let st := processedState now signals
  (keptOf sorted st.drop ++ st.created, st.errs)

/-! The Store-based file: Cell, Store, TryFlush, Process, ProcessAll. -/

/-- The Cell type: a filled flag and an int index. Clear only resets the
flag, as in the source. -/
structure Cell where
  filled : Bool := false
  index : Int := 0
deriving DecidableEq, Repr

/-- Cell.Filled. -/
def Cell.Filled (c : Cell) : Bool := c.filled

/-- Cell.Get: the stored index, or the sentinel minus one when empty. -/
def Cell.Get (c : Cell) : Int :=
  if c.filled then c.index else -1

/-- Cell.Set. -/
def Cell.Set (c : Cell) (index : Int) : Cell :=
  { c with filled := true, index := index }

/-- Cell.Clear. -/
def Cell.Clear (c : Cell) : Cell :=
  { c with filled := false }

/-- The Store type from the Store-based file. -/
structure Store where
  signals : List Signal := []
  addedSignals : List Signal := []
  templateSignal : Signal := {}
  activeLat : Cell := {}
  activeLon : Cell := {}
  activeHDOP : Cell := {}
  signalsToDelete : List Bool := []
  inFlightTimestamp : Int := 0
deriving DecidableEq, Repr

/-- Store.GetValue: the numeric value of the signal a cell points at. -/
def Store.GetValue (s : Store) (c : Cell) : ℚ :=
  (sigAt s.signals c.Get).valueNumber

/-- Store.DropValue: mark an index for deletion unless it is the
sentinel. -/
def Store.DropValue (s : Store) (signalIndex : Int) : Store :=
  if signalIndex ≠ -1 then
    { s with signalsToDelete := s.signalsToDelete.set signalIndex.toNat true }
  else s

/-- The composite row built by Store.TryFlush. -/
def mkStoreRow (template : Signal) (t : Int) (loc : Location) : Signal :=
  { tokenID := template.tokenID
    timestamp := t
    name := fieldLocation
    valueLocation := loc
    source := template.source
    producer := template.producer
    cloudEventID := template.cloudEventID }

/-- Store.TryFlush: emit a composite row from any active cells, or mark
an unpaired latitude or longitude for deletion; then clear all cells and
the in-flight timestamp. -/
def Store.TryFlush (s : Store) : Store :=
  let r1 : Bool × Location × Store :=
    if s.activeLat.Filled ∧ s.activeLon.Filled then
      (true,
        { latitude := s.GetValue s.activeLat
          longitude := s.GetValue s.activeLon },
        s)
    else
      (false, {}, (s.DropValue s.activeLat.Get).DropValue s.activeLon.Get)
  let s1 := r1.2.2
  let r2 : Bool × Location :=
    if s1.activeHDOP.Filled then
      (true, { r1.2.1 with hdop := s1.GetValue s1.activeHDOP })
    else (r1.1, r1.2.1)
  let s2 := if r2.1 then
      { s1 with addedSignals := s1.addedSignals ++
          [mkStoreRow s1.templateSignal s1.inFlightTimestamp r2.2] }
    else s1
  { s2 with
    activeLat := s2.activeLat.Clear
    activeLon := s2.activeLon.Clear
    activeHDOP := s2.activeHDOP.Clear
    inFlightTimestamp := 0 }

/-- Store.EnsureTimestamp. -/
def Store.EnsureTimestamp (s : Store) (t : Int) : Store :=
  if s.inFlightTimestamp = 0 then { s with inFlightTimestamp := t } else s

/-- Reading the cell selected by GetActiveIndex. -/
def Store.getCell (s : Store) : LocField → Cell
  | .lat => s.activeLat
  | .lon => s.activeLon
  | .hdop => s.activeHDOP

/-- Writing the cell selected by GetActiveIndex. -/
def Store.setCell (s : Store) (f : LocField) (c : Cell) : Store :=
  match f with
  | .lat => { s with activeLat := c }
  | .lon => { s with activeLon := c }
  | .hdop => { s with activeHDOP := c }

/-- Store.Process for index i: duplicate marking (no early exit in the
source), gap check with a strict comparison, then cell dispatch where a
collision marks the new record for deletion. -/
def Store.Process (s : Store) (i : Nat) : Store :=
  let sig := sigAt s.signals (Int.ofNat i)
  let s1 := if 0 < i ∧
      sig.timestamp = (sigAt s.signals (Int.ofNat (i - 1))).timestamp ∧
      sig.name = (sigAt s.signals (Int.ofNat (i - 1))).name then
      s.DropValue (Int.ofNat i)
    else s
  let s2 := if s1.inFlightTimestamp ≠ 0 ∧
      sig.timestamp > s1.inFlightTimestamp + maxLocationTimestampGap then
      s1.TryFlush
    else s1
  match lastReference sig.name with
  | none => s2
  | some f =>
    let s3 := if (s2.getCell f).Filled then s2.DropValue (Int.ofNat i)
      else s2.setCell f ((s2.getCell f).Set (Int.ofNat i))
    s3.EnsureTimestamp sig.timestamp

/-- The state of ProcessAll after initialization and the first k calls
to Process. -/
def Store.runSteps (s : Store) (k : Nat) : Store :=
  (List.range k).foldl Store.Process
    { s with
      templateSignal := s.signals.headI
      signalsToDelete := List.replicate s.signals.length false }

/-- Store.ProcessAll: run Process over all indices, one final TryFlush,
then assemble the undeleted records followed by the added rows. -/
def Store.ProcessAll (s : Store) : List Signal :=
  if s.signals.isEmpty then s.signals else
  let t := (s.runSteps s.signals.length).TryFlush
  keptOf t.signals t.signalsToDelete ++ t.addedSignals

/-- The New constructor. -/
def Store.New (signals : List Signal) : Store :=
  { signals := signals }

/-! Lawfulness of the sort comparator. -/

theorem lt_then (x : Ordering) : Ordering.lt.then x = Ordering.lt := rfl

theorem eq_then (x : Ordering) : Ordering.eq.then x = x := rfl

theorem gt_then (x : Ordering) : Ordering.gt.then x = Ordering.gt := rfl

theorem goCompare_eq_lt {α : Type} [LinearOrder α] {x y : α} :
    goCompare x y = .lt ↔ x < y := by
  unfold goCompare
  split_ifs with h1 h2
  · simp [h1]
  · simp [h1]
  · simp [h1]

theorem goCompare_eq_eq {α : Type} [LinearOrder α] {x y : α} :
    goCompare x y = .eq ↔ x = y := by
  unfold goCompare
  split_ifs with h1 h2
  · simp [ne_of_lt h1]
  · simp [h2]
  · simp [h2]

theorem goCompare_eq_gt {α : Type} [LinearOrder α] {x y : α} :
    goCompare x y = .gt ↔ y < x := by
  unfold goCompare
  split_ifs with h1 h2
  · simp [lt_asymm h1]
  · simp [h2, lt_irrefl]
  · simp [lt_of_le_of_ne (not_lt.mp h1) (Ne.symm h2)]

theorem goCompare_swap {α : Type} [LinearOrder α] (x y : α) :
    (goCompare x y).swap = goCompare y x := by
  rcases lt_trichotomy x y with h | h | h
  · rw [goCompare_eq_lt.mpr h, show goCompare y x = .gt from goCompare_eq_gt.mpr h]
    rfl
  · rw [goCompare_eq_eq.mpr h, show goCompare y x = .eq from goCompare_eq_eq.mpr h.symm]
    rfl
  · rw [show goCompare x y = .gt from goCompare_eq_gt.mpr h, goCompare_eq_lt.mpr h]
    rfl

theorem then_swap (a b : Ordering) : (a.then b).swap = a.swap.then b.swap := by
  cases a <;> cases b <;> rfl

theorem lexCompare_swap (as : List Char) :
    ∀ bs, (lexCompare as bs).swap = lexCompare bs as := by
  induction as with
  | nil => intro bs; cases bs <;> rfl
  | cons a as ih =>
    intro bs
    cases bs with
    | nil => rfl
    | cons b bs =>
      show ((goCompare a.toNat b.toNat).then (lexCompare as bs)).swap = _
      rw [then_swap, goCompare_swap, ih bs]
      rfl

theorem lexCompare_trans {as bs cs : List Char}
    (h1 : lexCompare as bs ≠ .gt) (h2 : lexCompare bs cs ≠ .gt) :
    lexCompare as cs ≠ .gt := by
  induction as generalizing bs cs with
  | nil => cases cs <;> simp [lexCompare]
  | cons a as ih =>
    cases bs with
    | nil => simp [lexCompare] at h1
    | cons b bs =>
      cases cs with
      | nil => simp [lexCompare] at h2
      | cons c cs =>
        simp only [lexCompare] at h1 h2 ⊢
        rcases hab : goCompare a.toNat b.toNat with _ | _ | _ <;>
          rw [hab] at h1 <;>
            rcases hbc : goCompare b.toNat c.toNat with _ | _ | _ <;>
              rw [hbc] at h2
        · rw [goCompare_eq_lt.mpr (lt_trans (goCompare_eq_lt.mp hab)
            (goCompare_eq_lt.mp hbc)), lt_then]
          simp
        · rw [goCompare_eq_lt.mpr (goCompare_eq_eq.mp hbc ▸ goCompare_eq_lt.mp hab),
            lt_then]
          simp
        · rw [gt_then] at h2
          exact absurd rfl h2
        · rw [goCompare_eq_lt.mpr ((goCompare_eq_eq.mp hab).symm ▸
            goCompare_eq_lt.mp hbc), lt_then]
          simp
        · rw [goCompare_eq_eq.mpr ((goCompare_eq_eq.mp hab).trans
            (goCompare_eq_eq.mp hbc)), eq_then]
          rw [eq_then] at h1
          rw [eq_then] at h2
          exact ih h1 h2
        · rw [gt_then] at h2
          exact absurd rfl h2
        · rw [gt_then] at h1
          exact absurd rfl h1
        · rw [gt_then] at h1
          exact absurd rfl h1
        · rw [gt_then] at h1
          exact absurd rfl h1

theorem cmpSignals_swap (a b : Signal) :
    (cmpSignals a b).swap = cmpSignals b a := by
  unfold cmpSignals strCompare
  rw [then_swap, goCompare_swap, lexCompare_swap]

/-- The characterization of the sort relation: primary key timestamp
ascending, secondary key name ascending lexicographically. -/
theorem sigLE_iff {a b : Signal} :
    sigLE a b ↔ a.timestamp < b.timestamp ∨
      (a.timestamp = b.timestamp ∧ strCompare a.name b.name ≠ .gt) := by
  unfold sigLE cmpSignals
  rcases lt_trichotomy a.timestamp b.timestamp with h | h | h
  · rw [goCompare_eq_lt.mpr h, lt_then]
    simp [h]
  · rw [goCompare_eq_eq.mpr h, eq_then]
    simp [h, lt_irrefl]
  · rw [goCompare_eq_gt.mpr h, gt_then]
    simp [lt_asymm h, (ne_of_lt h).symm]

instance : IsTotal Signal sigLE := by
  constructor
  intro a b
  by_cases h : cmpSignals a b = .gt
  · right
    unfold sigLE
    rw [← cmpSignals_swap, h]
    simp [Ordering.swap]
  · left
    exact h

instance : IsTrans Signal sigLE := by
  constructor
  intro a b c hab hbc
  rw [sigLE_iff] at hab hbc ⊢
  rcases hab with h1 | ⟨h1, h1n⟩ <;> rcases hbc with h2 | ⟨h2, h2n⟩
  · exact Or.inl (lt_trans h1 h2)
  · exact Or.inl (h2 ▸ h1)
  · exact Or.inl (h1 ▸ h2)
  · exact Or.inr ⟨h1.trans h2, lexCompare_trans h1n h2n⟩

theorem lexCompare_self (as : List Char) : lexCompare as as = .eq := by
  induction as with
  | nil => rfl
  | cons a as ih =>
    show (goCompare a.toNat a.toNat).then (lexCompare as as) = .eq
    rw [goCompare_eq_eq.mpr rfl, eq_then, ih]

instance : IsRefl Signal sigLE := by
  constructor
  intro a
  unfold sigLE cmpSignals strCompare
  rw [goCompare_eq_eq.mpr rfl, eq_then, lexCompare_self]
  simp

/-! Structural lemmas about the ProcessSignals pass. -/

theorem runUpTo_zero (now : Int) (template : Signal) (signals : List Signal) :
    runUpTo now template signals 0 = initState signals := rfl

theorem runUpTo_succ (now : Int) (template : Signal) (signals : List Signal)
    (k : Nat) :
    runUpTo now template signals (k + 1) =
      stepP now template signals (runUpTo now template signals k) k := by
  unfold runUpTo
  rw [List.range_succ, List.foldl_append]
  rfl

theorem setDrop_length (d : List Bool) (i : Int) :
    (setDrop d i).length = d.length := by
  unfold setDrop
  exact List.length_set d i.toNat true

theorem tryCreate_drop_length (template : Signal) (signals : List Signal)
    (s : PState) :
    (tryCreateLocationSignal template signals s).drop.length = s.drop.length := by
  unfold tryCreateLocationSignal
  by_cases h1 : s.lastLat ≠ -1 ∧ s.lastLon ≠ -1
  · by_cases h2 : (sigAt signals s.lastLat).valueNumber = 0 ∧
        (sigAt signals s.lastLon).valueNumber = 0 <;>
      simp [h1, h2, setDrop_length]
  · by_cases h3 : s.lastLat ≠ -1
    · have h4 : s.lastLon = -1 := by
        by_contra hc
        exact h1 ⟨h3, hc⟩
      simp [h1, h3, h4, setDrop_length]
    · by_cases h4 : s.lastLon ≠ -1 <;> simp [h1, h3, h4, setDrop_length]

theorem gapStage_drop_length (template : Signal) (signals : List Signal)
    (s : PState) (sig : Signal) :
    (gapStage template signals s sig).drop.length = s.drop.length := by
  unfold gapStage
  split_ifs <;> simp [tryCreate_drop_length]

theorem setRef_drop (s : PState) (f : LocField) (i : Int) :
    (s.setRef f i).drop = s.drop := by
  cases f <;> rfl

theorem setRef_errs (s : PState) (f : LocField) (i : Int) :
    (s.setRef f i).errs = s.errs := by
  cases f <;> rfl

theorem setRef_created (s : PState) (f : LocField) (i : Int) :
    (s.setRef f i).created = s.created := by
  cases f <;> rfl

theorem setRef_lastTime (s : PState) (f : LocField) (i : Int) :
    (s.setRef f i).lastTime = s.lastTime := by
  cases f <;> rfl

theorem stepP_drop_length (now : Int) (template : Signal)
    (signals : List Signal) (s : PState) (i : Nat) :
    (stepP now template signals s i).drop.length = s.drop.length := by
  simp only [stepP]
  split_ifs with h1 h2
  · simp [setDrop_length, gapStage_drop_length]
  · simp [setDrop_length, gapStage_drop_length]
  · cases h : lastReference (sigAt signals (Int.ofNat i)).name with
    | none => simp [h, gapStage_drop_length]
    | some f =>
      simp only [h]
      split_ifs with h3 h4 <;>
        simp [setRef_drop, tryCreate_drop_length, gapStage_drop_length]

theorem runUpTo_drop_length (now : Int) (template : Signal)
    (signals : List Signal) : ∀ k,
    (runUpTo now template signals k).drop.length = signals.length := by
  intro k
  induction k with
  | zero => simp [runUpTo_zero, initState]
  | succ k ih => rw [runUpTo_succ, stepP_drop_length, ih]

theorem processedState_drop_length (now : Int) (signals : List Signal) :
    (processedState now signals).drop.length = signals.length := by
  unfold processedState
  rw [tryCreate_drop_length, runUpTo_drop_length]
  simp [sortSignals]

theorem kept_append_dropped_perm (l : List Signal) (d : List Bool)
    (h : d.length = l.length) :
    (keptOf l d ++ droppedOf l d).Perm l := by
  unfold keptOf droppedOf
  rw [← List.map_append]
  have h1 : ((l.zip d).filter (fun p => !p.2) ++
      (l.zip d).filter (fun p => p.2)).Perm (l.zip d) := by
    have h2 := List.filter_append_perm (fun p : Signal × Bool => !p.2) (l.zip d)
    simpa using h2
  have h3 := h1.map Prod.fst
  rwa [List.map_fst_zip l d (le_of_eq h.symm)] at h3

/-! Claim theorems. -/

/-- C6: the ordering stage always produces a sequence sorted by
timestamp ascending with name ascending (lexicographic) as tie-break, it
is a permutation of its input, and it is idempotent: sorting the output
again returns it unchanged, for every input, including inputs with
distinct records of equal timestamp and equal name. -/
theorem c6_ordering_sorted_idempotent :
    ∀ l : List Signal,
      List.Sorted sigLE (sortSignals l) ∧
      sortSignals (sortSignals l) = sortSignals l ∧
      (sortSignals l).Perm l ∧
      (∀ a b : Signal, sigLE a b ↔ a.timestamp < b.timestamp ∨
        (a.timestamp = b.timestamp ∧ strCompare a.name b.name ≠ .gt)) := by
  intro l
  exact ⟨List.sorted_insertionSort sigLE l,
    (List.sorted_insertionSort sigLE l).insertionSort_eq,
    List.perm_insertionSort sigLE l,
    fun a b => sigLE_iff⟩

/-- C3: every input record ends in exactly one of two fates. The drop
marker array keeps one boolean per record of the sorted sequence, the
retained records and the dropped records partition the input exactly
(their concatenation is a permutation of the input, so nothing is
duplicated or mutated and the lengths add up to the input length), and
the output is exactly the retained originals followed by the separately
accumulated created composites. -/
theorem c3_retained_dropped_partition (now : Int) (signals : List Signal) :
    (processedState now signals).drop.length = signals.length ∧
    (keptOf (sortSignals signals) (processedState now signals).drop).length +
      (droppedOf (sortSignals signals) (processedState now signals).drop).length
        = signals.length ∧
    (keptOf (sortSignals signals) (processedState now signals).drop ++
      droppedOf (sortSignals signals) (processedState now signals).drop).Perm
        signals ∧
    (ProcessSignals now signals).1 =
      keptOf (sortSignals signals) (processedState now signals).drop ++
        (processedState now signals).created := by
  have hlen : (processedState now signals).drop.length = signals.length :=
    processedState_drop_length now signals
  have hsort : (sortSignals signals).length = signals.length := by
    simp [sortSignals]
  have hperm : (keptOf (sortSignals signals) (processedState now signals).drop ++
      droppedOf (sortSignals signals) (processedState now signals).drop).Perm
        signals := by
    refine (kept_append_dropped_perm _ _ ?_).trans
      (List.perm_insertionSort sigLE signals)
    rw [hlen, hsort]
  refine ⟨hlen, ?_, hperm, ?_⟩
  · have := hperm.length_eq
    simpa using this
  · by_cases h : signals.isEmpty
    · rw [List.isEmpty_iff] at h
      subst h
      rfl
    · simp [ProcessSignals, h]

/-- C1: at a flush where the latitude and longitude slots are both
filled with values both equal to zero, both slot records are marked
dropped, exactly one origin diagnostic at the representative timestamp
is appended, and no composite is created from the pair; if the HDOP slot
is also filled, exactly one composite is still created, carrying only
the HDOP value with latitude and longitude left at zero. -/
theorem c1_origin_pair_flush (template : Signal) (signals : List Signal)
    (s : PState)
    (hLat : s.lastLat ≠ -1) (hLon : s.lastLon ≠ -1)
    (hvLat : (sigAt signals s.lastLat).valueNumber = 0)
    (hvLon : (sigAt signals s.lastLon).valueNumber = 0) :
    (tryCreateLocationSignal template signals s).drop
        = setDrop (setDrop s.drop s.lastLat) s.lastLon ∧
    (tryCreateLocationSignal template signals s).errs
        = s.errs ++ [Diag.originAt s.lastTime] ∧
    (s.lastHDOP = -1 →
      (tryCreateLocationSignal template signals s).created = s.created) ∧
    (s.lastHDOP ≠ -1 →
      (tryCreateLocationSignal template signals s).created =
        s.created ++ [mkLocationRow template s.lastTime
          { latitude := 0, longitude := 0,
            hdop := (sigAt signals s.lastHDOP).valueNumber }]) := by
  by_cases hH : s.lastHDOP = -1 <;>
    simp [tryCreateLocationSignal, hLat, hLon, hvLat, hvLon, hH]

/-- Concrete signal slice for the C1 witness. -/
def c1signals : List Signal :=
  [{ timestamp := 100, name := FieldCurrentLocationLatitude },
   { timestamp := 100, name := FieldCurrentLocationLongitude },
   { timestamp := 100, name := FieldDIMOAftermarketHDOP, valueNumber := 4 }]

/-- Concrete flush state for the C1 witness: all three slots filled,
origin pair. -/
def c1state : PState :=
  { errs := [], drop := [false, false, false], created := [],
    lastLat := 0, lastLon := 1, lastHDOP := 2, lastTime := 100 }

/-- Witness for C1 at a concrete flush state with all three slots
filled and an origin pair. -/
theorem c1_origin_pair_flush_witness :
    c1state.lastLat ≠ -1 ∧ c1state.lastLon ≠ -1 ∧
    ((tryCreateLocationSignal {} c1signals c1state).drop
        = setDrop (setDrop c1state.drop c1state.lastLat) c1state.lastLon ∧
     (tryCreateLocationSignal {} c1signals c1state).errs
        = c1state.errs ++ [Diag.originAt c1state.lastTime] ∧
     (c1state.lastHDOP = -1 →
      (tryCreateLocationSignal {} c1signals c1state).created
        = c1state.created) ∧
     (c1state.lastHDOP ≠ -1 →
      (tryCreateLocationSignal {} c1signals c1state).created =
        c1state.created ++ [mkLocationRow {} c1state.lastTime
          { latitude := 0, longitude := 0,
            hdop := (sigAt c1signals c1state.lastHDOP).valueNumber }])) :=
  ⟨by decide, by decide,
    c1_origin_pair_flush {} c1signals c1state
      (by decide) (by decide) (by decide) (by decide)⟩

/-- C8: at a flush where exactly one of the latitude and longitude
slots is filled, the orphan record is marked dropped and exactly one
unpaired-latitude (respectively unpaired-longitude) diagnostic at the
representative time is appended; and end to end, a lone latitude record
still yields a usable output together with the one diagnostic. -/
theorem c8_unpaired_flush :
    (∀ template signals s, s.lastLat ≠ -1 → s.lastLon = -1 →
      (tryCreateLocationSignal template signals s).drop
          = setDrop s.drop s.lastLat ∧
      (tryCreateLocationSignal template signals s).errs
          = s.errs ++ [Diag.unpairedLatitude s.lastTime]) ∧
    (∀ template signals s, s.lastLat = -1 → s.lastLon ≠ -1 →
      (tryCreateLocationSignal template signals s).drop
          = setDrop s.drop s.lastLon ∧
      (tryCreateLocationSignal template signals s).errs
          = s.errs ++ [Diag.unpairedLongitude s.lastTime]) ∧
    (∀ (now : Int) (a : Signal), a.name = FieldCurrentLocationLatitude →
      ¬(a.timestamp > now + futureAllowance) →
      ProcessSignals now [a] = ([], [Diag.unpairedLatitude a.timestamp])) := by
  refine ⟨?_, ?_, ?_⟩
  · intro template signals s hLat hLon
    constructor <;> simp [tryCreateLocationSignal, hLat, hLon]
  · intro template signals s hLat hLon
    constructor <;> simp [tryCreateLocationSignal, hLat, hLon]
  · intro now a hname hfut
    simp [ProcessSignals, processedState, sortSignals, List.insertionSort,
      List.orderedInsert, runUpTo, List.range, List.range.loop, stepP,
      gapStage, initState, sigAt, hname, hfut, lastReference,
      PState.getRef, PState.setRef, tryCreateLocationSignal, setDrop,
      keptOf]

/-- Concrete one-record slice for the C8 witness, latitude case. -/
def c8latSignals : List Signal :=
  [{ timestamp := 7, name := FieldCurrentLocationLatitude, valueNumber := 5 }]

/-- Concrete flush state for the C8 witness, only latitude filled. -/
def c8latState : PState :=
  { errs := [], drop := [false], created := [],
    lastLat := 0, lastLon := -1, lastHDOP := -1, lastTime := 7 }

/-- Concrete one-record slice for the C8 witness, longitude case. -/
def c8lonSignals : List Signal :=
  [{ timestamp := 7, name := FieldCurrentLocationLongitude, valueNumber := 5 }]

/-- Concrete flush state for the C8 witness, only longitude filled. -/
def c8lonState : PState :=
  { errs := [], drop := [false], created := [],
    lastLat := -1, lastLon := 0, lastHDOP := -1, lastTime := 7 }

/-- Lone latitude record for the end-to-end part of the C8 witness. -/
def c8lone : Signal :=
  { timestamp := 9, name := FieldCurrentLocationLatitude, valueNumber := 5 }

/-- Witness for C8 at concrete flush states and a concrete lone
latitude record. -/
theorem c8_unpaired_flush_witness :
    ((tryCreateLocationSignal {} c8latSignals c8latState).drop = [true] ∧
     (tryCreateLocationSignal {} c8latSignals c8latState).errs
        = [Diag.unpairedLatitude 7]) ∧
    ((tryCreateLocationSignal {} c8lonSignals c8lonState).drop = [true] ∧
     (tryCreateLocationSignal {} c8lonSignals c8lonState).errs
        = [Diag.unpairedLongitude 7]) ∧
    ProcessSignals 0 [c8lone] = ([], [Diag.unpairedLatitude 9]) :=
  ⟨c8_unpaired_flush.1 {} c8latSignals c8latState (by decide) (by decide),
   c8_unpaired_flush.2.1 {} c8lonSignals c8lonState (by decide) (by decide),
   c8_unpaired_flush.2.2 0 c8lone (by decide) (by decide)⟩

/-! The C2 family: gap-tolerance boundary behavior of ProcessSignals
on a latitude-longitude pair. -/

theorem pairWithinGap_run (now : Int) (a b : Signal)
    (hA : a.name = FieldCurrentLocationLatitude)
    (hB : b.name = FieldCurrentLocationLongitude)
    (hpos : 0 < a.timestamp)
    (hle : a.timestamp ≤ b.timestamp)
    (hlt : b.timestamp - a.timestamp < allowedLocationGap)
    (hbf : b.timestamp ≤ now + futureAllowance)
    (hnz : ¬(a.valueNumber = 0 ∧ b.valueNumber = 0)) :
    ProcessSignals now [a, b] = ([a, b, mkLocationRow a a.timestamp
      { latitude := a.valueNumber, longitude := b.valueNumber }], []) := by
  have hab : sigLE a b := by
    rw [sigLE_iff]
    rcases lt_or_eq_of_le hle with h | h
    · exact Or.inl h
    · refine Or.inr ⟨h, ?_⟩
      rw [hA, hB]
      decide
  have hsort : sortSignals [a, b] = [a, b] := by
    simp [sortSignals, List.insertionSort, List.orderedInsert, if_pos hab]
  have haf : ¬(a.timestamp > now + futureAllowance) := not_lt.mpr (le_trans hle hbf)
  have hbf2 : ¬(b.timestamp > now + futureAllowance) := not_lt.mpr hbf
  have hanz : a.timestamp ≠ 0 := ne_of_gt hpos
  have hgap : ¬(allowedLocationGap ≤ b.timestamp - a.timestamp) := not_le.mpr hlt
  have hne1 : FieldCurrentLocationLongitude ≠ FieldCurrentLocationLatitude := by
    decide
  have h1 : runUpTo now a [a, b] 1 =
      { errs := [], drop := [false, false], created := [],
        lastLat := 0, lastLon := -1, lastHDOP := -1, lastTime := a.timestamp } := by
    rw [runUpTo_succ, runUpTo_zero]
    simp [stepP, gapStage, initState, sigAt, hA, lastReference,
      PState.getRef, PState.setRef, haf]
  have h2 : runUpTo now a [a, b] 2 =
      { errs := [], drop := [false, false], created := [],
        lastLat := 0, lastLon := 1, lastHDOP := -1, lastTime := a.timestamp } := by
    rw [runUpTo_succ, h1]
    simp [stepP, gapStage, sigAt, hA, hB, lastReference,
      PState.getRef, PState.setRef, hbf2, hanz, hgap, hne1]
  have h3 : processedState now [a, b] =
      { errs := [], drop := [false, false],
        created := [mkLocationRow a a.timestamp
          { latitude := a.valueNumber, longitude := b.valueNumber }],
        lastLat := -1, lastLon := -1, lastHDOP := -1, lastTime := 0 } := by
    simp only [processedState, hsort]
    have hlen2 : ([a, b] : List Signal).length = 2 := rfl
    have hhead : ([a, b] : List Signal).headI = a := rfl
    rw [hlen2, hhead, h2]
    simp [tryCreateLocationSignal, sigAt, hnz,
      (show ((0 : Int) = -1) = False by simp),
      (show ((1 : Int) = -1) = False by simp),
      Int.toNat_zero, Int.toNat_one]
  simp [ProcessSignals, hsort, h3, keptOf]

theorem pairAtGap_run (now : Int) (a b : Signal)
    (hA : a.name = FieldCurrentLocationLatitude)
    (hB : b.name = FieldCurrentLocationLongitude)
    (hpos : 0 < a.timestamp)
    (hge : allowedLocationGap ≤ b.timestamp - a.timestamp)
    (haf : a.timestamp ≤ now + futureAllowance)
    (hbf : b.timestamp ≤ now + futureAllowance) :
    ProcessSignals now [a, b] =
      ([], [Diag.unpairedLatitude a.timestamp,
            Diag.unpairedLongitude b.timestamp]) := by
  have hgap0 : (0 : Int) < allowedLocationGap := by
    unfold allowedLocationGap
    norm_num
  have hlt : a.timestamp < b.timestamp :=
    sub_pos.mp (lt_of_lt_of_le hgap0 hge)
  have hab : sigLE a b := sigLE_iff.mpr (Or.inl hlt)
  have hsort : sortSignals [a, b] = [a, b] := by
    simp [sortSignals, List.insertionSort, List.orderedInsert, if_pos hab]
  have haf2 : ¬(a.timestamp > now + futureAllowance) := not_lt.mpr haf
  have hbf2 : ¬(b.timestamp > now + futureAllowance) := not_lt.mpr hbf
  have hanz : a.timestamp ≠ 0 := ne_of_gt hpos
  have hne1 : FieldCurrentLocationLongitude ≠ FieldCurrentLocationLatitude := by
    decide
  have h1 : runUpTo now a [a, b] 1 =
      { errs := [], drop := [false, false], created := [],
        lastLat := 0, lastLon := -1, lastHDOP := -1, lastTime := a.timestamp } := by
    rw [runUpTo_succ, runUpTo_zero]
    simp [stepP, gapStage, initState, sigAt, hA, lastReference,
      PState.getRef, PState.setRef, haf2]
  have h2 : runUpTo now a [a, b] 2 =
      { errs := [Diag.unpairedLatitude a.timestamp], drop := [true, false],
        created := [],
        lastLat := -1, lastLon := 1, lastHDOP := -1, lastTime := b.timestamp } := by
    rw [runUpTo_succ, h1]
    simp [stepP, gapStage, sigAt, hA, hB, lastReference,
      PState.getRef, PState.setRef, hbf2, hanz, hge, hne1,
      tryCreateLocationSignal, setDrop,
      (show ((0 : Int) = -1) = False by simp),
      (show ((-1 : Int) = -1) = True by simp),
      Int.toNat_zero, Int.toNat_one]
  have h3 : processedState now [a, b] =
      { errs := [Diag.unpairedLatitude a.timestamp,
                 Diag.unpairedLongitude b.timestamp],
        drop := [true, true], created := [],
        lastLat := -1, lastLon := -1, lastHDOP := -1, lastTime := 0 } := by
    simp only [processedState, hsort]
    have hlen2 : ([a, b] : List Signal).length = 2 := rfl
    have hhead : ([a, b] : List Signal).headI = a := rfl
    rw [hlen2, hhead, h2]
    simp [tryCreateLocationSignal, sigAt, setDrop,
      (show ((1 : Int) = -1) = False by simp),
      (show ((-1 : Int) = -1) = True by simp),
      Int.toNat_zero, Int.toNat_one]
  simp [ProcessSignals, hsort, h3, keptOf]

/-- C2 (amended): in ProcessSignals, an incoming record forces a flush
of the in-progress triple exactly when its timestamp is at least the
500 ms gap tolerance past the representative timestamp. A latitude and
longitude pair with timestamps strictly within the tolerance, non-origin
values and no slot collision yields exactly one composite with matching
values, while a pair whose timestamps differ by the tolerance or more is
flushed apart into two unpaired drops and yields no composite. -/
theorem c2_gap_tolerance_boundary :
    (∀ (now : Int) (a b : Signal),
      a.name = FieldCurrentLocationLatitude →
      b.name = FieldCurrentLocationLongitude →
      0 < a.timestamp → a.timestamp ≤ b.timestamp →
      b.timestamp - a.timestamp < allowedLocationGap →
      b.timestamp ≤ now + futureAllowance →
      ¬(a.valueNumber = 0 ∧ b.valueNumber = 0) →
      ProcessSignals now [a, b] = ([a, b, mkLocationRow a a.timestamp
        { latitude := a.valueNumber, longitude := b.valueNumber }], [])) ∧
    (∀ (now : Int) (a b : Signal),
      a.name = FieldCurrentLocationLatitude →
      b.name = FieldCurrentLocationLongitude →
      0 < a.timestamp →
      allowedLocationGap ≤ b.timestamp - a.timestamp →
      a.timestamp ≤ now + futureAllowance →
      b.timestamp ≤ now + futureAllowance →
      ProcessSignals now [a, b] =
        ([], [Diag.unpairedLatitude a.timestamp,
              Diag.unpairedLongitude b.timestamp])) :=
  ⟨pairWithinGap_run, pairAtGap_run⟩

/-- Latitude record used by the C2 concrete instances. -/
def c2a : Signal :=
  { timestamp := 1000, name := FieldCurrentLocationLatitude, valueNumber := 42 }

/-- Longitude record 200 ns later, strictly within the gap tolerance. -/
def c2b : Signal :=
  { timestamp := 1200, name := FieldCurrentLocationLongitude, valueNumber := 7 }

/-- Longitude record exactly the gap tolerance later. -/
def c2c : Signal :=
  { timestamp := 500001000, name := FieldCurrentLocationLongitude,
    valueNumber := 7 }

/-- Witness for C2 at concrete pairs on both sides of the boundary. -/
theorem c2_gap_tolerance_boundary_witness :
    ProcessSignals 0 [c2a, c2b] = ([c2a, c2b, mkLocationRow c2a c2a.timestamp
      { latitude := c2a.valueNumber, longitude := c2b.valueNumber }], []) ∧
    ProcessSignals 0 [c2a, c2c] =
      ([], [Diag.unpairedLatitude c2a.timestamp,
            Diag.unpairedLongitude c2c.timestamp]) :=
  ⟨c2_gap_tolerance_boundary.1 0 c2a c2b (by decide) (by decide) (by decide)
      (by decide) (by decide) (by decide) (by decide),
   c2_gap_tolerance_boundary.2 0 c2a c2c (by decide) (by decide) (by decide)
      (by decide) (by decide) (by decide)⟩

/-- C2 counterexample: a longitude record whose timestamp exceeds the
representative timestamp by exactly the tolerance, hence not by more
than it, still forces a flush in ProcessSignals: the pair yields no
composite and both records are dropped as unpaired. -/
theorem c2_gap_counterexample :
    ¬(c2c.timestamp - c2a.timestamp > allowedLocationGap) ∧
    ((ProcessSignals 0 [c2a, c2c]).1.filter
      (fun s => s.name = fieldCoordinates)).length = 0 ∧
    (ProcessSignals 0 [c2a, c2c]).2 =
      [Diag.unpairedLatitude 1000, Diag.unpairedLongitude 500001000] := by
  refine ⟨by decide, by decide, by decide⟩

/-! The C9 family: the exact-duplicate guard. -/

theorem tripleIdentical_run (now : Int) (c : Signal)
    (hname : lastReference c.name = none)
    (hfut : ¬(c.timestamp > now + futureAllowance)) :
    ProcessSignals now [c, c, c] = ([c], []) := by
  have hcc : sigLE c c := refl_of sigLE c
  have hsort : sortSignals [c, c, c] = [c, c, c] := by
    simp [sortSignals, List.insertionSort, List.orderedInsert, hcc]
  have h1 : runUpTo now c [c, c, c] 1 =
      { errs := [], drop := [false, false, false], created := [],
        lastLat := -1, lastLon := -1, lastHDOP := -1, lastTime := 0 } := by
    rw [runUpTo_succ, runUpTo_zero]
    simp [stepP, gapStage, initState, sigAt, hfut, hname]
  have h2 : runUpTo now c [c, c, c] 2 =
      { errs := [], drop := [false, true, false], created := [],
        lastLat := -1, lastLon := -1, lastHDOP := -1, lastTime := 0 } := by
    rw [runUpTo_succ, h1]
    simp [stepP, gapStage, sigAt, hfut, setDrop]
  have h3 : runUpTo now c [c, c, c] 3 =
      { errs := [], drop := [false, true, true], created := [],
        lastLat := -1, lastLon := -1, lastHDOP := -1, lastTime := 0 } := by
    rw [runUpTo_succ, h2]
    simp [stepP, gapStage, sigAt, hfut, setDrop]
  have h4 : processedState now [c, c, c] =
      { errs := [], drop := [false, true, true], created := [],
        lastLat := -1, lastLon := -1, lastHDOP := -1, lastTime := 0 } := by
    simp only [processedState, hsort]
    have hlen3 : ([c, c, c] : List Signal).length = 3 := rfl
    have hhead : ([c, c, c] : List Signal).headI = c := rfl
    rw [hlen3, hhead, h3]
    simp [tryCreateLocationSignal]
  simp [ProcessSignals, hsort, h4, keptOf]

/-- C9 (amended): a record that passes the future-timestamp guard and is
immediately preceded in sorted order by a record with equal name and
equal timestamp is marked dropped with no diagnostic and no further
processing beyond the gap check; three identical records whose name is
not one of the three location names collapse to exactly one retained
record, while an identical location triple first collapses to one record
which the flush rules may then drop. -/
theorem c9_duplicate_collapse :
    (∀ (now : Int) (template : Signal) (signals : List Signal) (s : PState)
        (i : Nat),
      ¬((sigAt signals i).timestamp > now + futureAllowance) →
      (0 < i ∧
        (sigAt signals i).name = (sigAt signals (i - 1 : Nat)).name ∧
        (sigAt signals i).timestamp
          = (sigAt signals (i - 1 : Nat)).timestamp) →
      stepP now template signals s i =
        { gapStage template signals s (sigAt signals i) with
          drop := setDrop
            (gapStage template signals s (sigAt signals i)).drop i }) ∧
    (∀ (now : Int) (c : Signal),
      lastReference c.name = none →
      ¬(c.timestamp > now + futureAllowance) →
      ProcessSignals now [c, c, c] = ([c], [])) := by
  constructor
  · intro now template signals s i h1 h2
    obtain ⟨hi, hn, ht⟩ := h2
    simp [stepP, h1, hi, hn, ht]
    have hc : ((i : Int) - 1) = ((i - 1 : Nat) : Int) := by
      omega
    rw [hc, ← ht]
    exact not_lt.mp h1
  · exact tripleIdentical_run

/-- Non-location record used by the C9 witness. -/
def c9spd : Signal := { timestamp := 1000, name := "speed", valueNumber := 42 }

/-- Witness for C9: a concrete duplicate step and a concrete identical
non-location triple. -/
theorem c9_duplicate_collapse_witness :
    stepP 0 c9spd [c9spd, c9spd] (initState [c9spd, c9spd]) 1 =
      { gapStage c9spd [c9spd, c9spd]
          (initState [c9spd, c9spd]) (sigAt [c9spd, c9spd] (Int.ofNat 1)) with
        drop := setDrop
          (gapStage c9spd [c9spd, c9spd]
            (initState [c9spd, c9spd]) (sigAt [c9spd, c9spd] (Int.ofNat 1))).drop
          (Int.ofNat 1) } ∧
    ProcessSignals 0 [c9spd, c9spd, c9spd] = ([c9spd], []) :=
  ⟨c9_duplicate_collapse.1 0 c9spd [c9spd, c9spd] (initState [c9spd, c9spd]) 1
      (by decide) (by decide),
   c9_duplicate_collapse.2 0 c9spd (by decide) (by decide)⟩

/-- Latitude record used by the C9 counterexample. -/
def c9lat : Signal :=
  { timestamp := 1000, name := FieldCurrentLocationLatitude, valueNumber := 42 }

/-- C9 counterexample: three identical latitude records do not collapse
to exactly one retained record; the two duplicates are dropped silently
and the surviving latitude is then dropped as unpaired at the final
flush, so the output retains nothing. -/
theorem c9_duplicate_counterexample :
    ProcessSignals 0 [c9lat, c9lat, c9lat]
      = ([], [Diag.unpairedLatitude 1000]) ∧
    (ProcessSignals 0 [c9lat, c9lat, c9lat]).1.length ≠ 1 := by
  refine ⟨by decide, by decide⟩

/-! The C4 family: placement of the future-timestamp guard. -/

/-- C4 (amended): the future-timestamp guard runs before the
exact-duplicate guard and the slot dispatch but after the gap check: a
record beyond the allowed future skew is marked dropped with a
diagnostic and skips duplicate detection and slot dispatch, yet the gap
check has already run, so such a record can still force a flush of the
in-progress triple. -/
theorem c4_future_guard_after_gap_check :
    ∀ (now : Int) (template : Signal) (signals : List Signal) (s : PState)
      (i : Nat),
      (sigAt signals i).timestamp > now + futureAllowance →
      stepP now template signals s i =
        { gapStage template signals s (sigAt signals i) with
          errs := (gapStage template signals s (sigAt signals i)).errs
            ++ [Diag.futureTimestamp (sigAt signals i).name
                (sigAt signals i).timestamp],
          drop := setDrop
            (gapStage template signals s (sigAt signals i)).drop i } := by
  intro now template signals s i h
  simp [stepP, h]

/-- Latitude record used by the C4 concrete instances. -/
def c4lat : Signal :=
  { timestamp := 1000, name := FieldCurrentLocationLatitude, valueNumber := 42 }

/-- Far-future speed record used by the C4 concrete instances. -/
def c4spd : Signal :=
  { timestamp := 400000000000, name := "speed", valueNumber := 9 }

/-- Witness for C4 at a concrete future record with a latitude in
progress. -/
theorem c4_future_guard_after_gap_check_witness :
    (sigAt (sortSignals [c4lat, c4spd]) (Int.ofNat 1)).timestamp
        > 0 + futureAllowance ∧
    stepP 0 c4lat (sortSignals [c4lat, c4spd])
        (runUpTo 0 c4lat (sortSignals [c4lat, c4spd]) 1) 1 =
      { gapStage c4lat (sortSignals [c4lat, c4spd])
          (runUpTo 0 c4lat (sortSignals [c4lat, c4spd]) 1)
          (sigAt (sortSignals [c4lat, c4spd]) (Int.ofNat 1)) with
        errs := (gapStage c4lat (sortSignals [c4lat, c4spd])
            (runUpTo 0 c4lat (sortSignals [c4lat, c4spd]) 1)
            (sigAt (sortSignals [c4lat, c4spd]) (Int.ofNat 1))).errs
          ++ [Diag.futureTimestamp
              (sigAt (sortSignals [c4lat, c4spd]) (Int.ofNat 1)).name
              (sigAt (sortSignals [c4lat, c4spd]) (Int.ofNat 1)).timestamp],
        drop := setDrop (gapStage c4lat (sortSignals [c4lat, c4spd])
            (runUpTo 0 c4lat (sortSignals [c4lat, c4spd]) 1)
            (sigAt (sortSignals [c4lat, c4spd]) (Int.ofNat 1))).drop
          (Int.ofNat 1) } :=
  ⟨by decide,
   c4_future_guard_after_gap_check 0 c4lat (sortSignals [c4lat, c4spd])
     (runUpTo 0 c4lat (sortSignals [c4lat, c4spd]) 1) 1 (by decide)⟩

/-- C4 counterexample: with a latitude in progress, a far-future record
does trigger a flush while it is being processed: after its step the
latitude slot has been cleared and the unpaired-latitude diagnostic
appears before the future-timestamp diagnostic, which contradicts the
claim that the future guard runs first and that such a record never
triggers a flush. -/
theorem c4_future_guard_counterexample :
    (sigAt (sortSignals [c4lat, c4spd]) (Int.ofNat 1)).timestamp
        > 0 + futureAllowance ∧
    (runUpTo 0 c4lat (sortSignals [c4lat, c4spd]) 2).errs
      = [Diag.unpairedLatitude 1000,
         Diag.futureTimestamp "speed" 400000000000] ∧
    (runUpTo 0 c4lat (sortSignals [c4lat, c4spd]) 2).lastLat = -1 ∧
    (runUpTo 0 c4lat (sortSignals [c4lat, c4spd]) 2).drop = [true, true] := by
  refine ⟨by decide, by decide, by decide, by decide⟩

/-! The C5 family: slot-collision policy in both implementations. -/

theorem tryCreate_lastTime (template : Signal) (signals : List Signal)
    (s : PState) :
    (tryCreateLocationSignal template signals s).lastTime = 0 := rfl

theorem getCell_dropValue (s : Store) (n : Int) (f : LocField) :
    ((s.DropValue n).getCell f) = s.getCell f := by
  unfold Store.DropValue
  split_ifs <;> cases f <;> rfl

theorem getCell_ensure (s : Store) (t : Int) (f : LocField) :
    ((s.EnsureTimestamp t).getCell f) = s.getCell f := by
  unfold Store.EnsureTimestamp
  split_ifs <;> cases f <;> rfl

theorem addedSignals_dropValue (s : Store) (n : Int) :
    (s.DropValue n).addedSignals = s.addedSignals := by
  unfold Store.DropValue
  split_ifs <;> rfl

theorem addedSignals_ensure (s : Store) (t : Int) :
    (s.EnsureTimestamp t).addedSignals = s.addedSignals := by
  unfold Store.EnsureTimestamp
  split_ifs <;> rfl

/-- C5 (amended): a filled slot is never silently overwritten, but the
two implementations handle a collision differently. In ProcessSignals a
record whose name selects an already-filled slot forces a flush first
and then fills the slot with the new record and sets the representative
timestamp to the new record's timestamp; in Store.Process the colliding
new record is marked for deletion instead, the cell keeps its old index,
and no flush is emitted. -/
theorem c5_slot_collision_policy :
    (∀ (now : Int) (template : Signal) (signals : List Signal) (s : PState)
        (i : Nat) (f : LocField),
      ¬((sigAt signals i).timestamp > now + futureAllowance) →
      ¬(0 < i ∧
        (sigAt signals i).name = (sigAt signals (i - 1 : Nat)).name ∧
        (sigAt signals i).timestamp
          = (sigAt signals (i - 1 : Nat)).timestamp) →
      lastReference (sigAt signals i).name = some f →
      (gapStage template signals s (sigAt signals i)).getRef f ≠ -1 →
      stepP now template signals s i =
        { (tryCreateLocationSignal template signals
            (gapStage template signals s (sigAt signals i))).setRef f i with
          lastTime := (sigAt signals i).timestamp }) ∧
    (∀ (s : Store) (i : Nat) (f : LocField),
      ¬(0 < i ∧
        (sigAt s.signals i).timestamp
          = (sigAt s.signals (i - 1 : Nat)).timestamp ∧
        (sigAt s.signals i).name = (sigAt s.signals (i - 1 : Nat)).name) →
      ¬(s.inFlightTimestamp ≠ 0 ∧
        (sigAt s.signals i).timestamp
          > s.inFlightTimestamp + maxLocationTimestampGap) →
      lastReference (sigAt s.signals i).name = some f →
      (s.getCell f).Filled = true →
      Store.Process s i =
        (s.DropValue i).EnsureTimestamp (sigAt s.signals i).timestamp ∧
      (Store.Process s i).getCell f = s.getCell f ∧
      (Store.Process s i).addedSignals = s.addedSignals) := by
  constructor
  · intro now template signals s i f h1 h2 hf hcol
    simp [stepP, h1, h2, hf, hcol, setRef_lastTime, tryCreate_lastTime]
  · intro s i f h1 h2 hf hfill
    have hp : Store.Process s i =
        (s.DropValue i).EnsureTimestamp (sigAt s.signals i).timestamp := by
      simp [Store.Process, h1, h2, hf, hfill]
    refine ⟨hp, ?_, ?_⟩
    · rw [hp, getCell_ensure, getCell_dropValue]
    · rw [hp, addedSignals_ensure, addedSignals_dropValue]

/-- Latitude records used by the C5 witness, 100 ns apart. -/
def c5lat1 : Signal :=
  { timestamp := 1000, name := FieldCurrentLocationLatitude, valueNumber := 39 }

/-- Second latitude record for the C5 witness collision. -/
def c5lat2 : Signal :=
  { timestamp := 1100, name := FieldCurrentLocationLatitude, valueNumber := 40 }

/-- In-progress state for the C5 witness: the latitude slot holds
index 0. -/
def c5state : PState :=
  { errs := [], drop := [false, false], created := [],
    lastLat := 0, lastLon := -1, lastHDOP := -1, lastTime := 1000 }

/-- In-progress store for the C5 witness: the latitude cell holds
index 0. -/
def c5store : Store :=
  { signals := [c5lat1, c5lat2], addedSignals := [],
    templateSignal := c5lat1,
    activeLat := { filled := true, index := 0 },
    activeLon := {}, activeHDOP := {},
    signalsToDelete := [false, false], inFlightTimestamp := 1000 }

/-- Witness for C5: a concrete collision step in each implementation. -/
theorem c5_slot_collision_policy_witness :
    stepP 0 c5lat1 [c5lat1, c5lat2] c5state 1 =
      { (tryCreateLocationSignal c5lat1 [c5lat1, c5lat2]
          (gapStage c5lat1 [c5lat1, c5lat2] c5state
            (sigAt [c5lat1, c5lat2] (Int.ofNat 1)))).setRef LocField.lat
              (Int.ofNat 1) with
        lastTime := (sigAt [c5lat1, c5lat2] (Int.ofNat 1)).timestamp } ∧
    (Store.Process c5store 1 =
      (c5store.DropValue (Int.ofNat 1)).EnsureTimestamp
        (sigAt c5store.signals (Int.ofNat 1)).timestamp ∧
     (Store.Process c5store 1).getCell LocField.lat
        = c5store.getCell LocField.lat ∧
     (Store.Process c5store 1).addedSignals = c5store.addedSignals) :=
  ⟨c5_slot_collision_policy.1 0 c5lat1 [c5lat1, c5lat2] c5state 1 LocField.lat
      (by decide) (by decide) (by decide) (by decide),
   c5_slot_collision_policy.2 c5store 1 LocField.lat
      (by decide) (by decide) (by decide) (by decide)⟩

/-- Longitude record used by the C5 counterexample. -/
def c5lon : Signal :=
  { timestamp := 2000, name := FieldCurrentLocationLongitude,
    valueNumber := -78 }

/-- Third record for the C5 counterexample, a latitude at 3000 ns
colliding with the filled latitude cell. -/
def c5lat3 : Signal :=
  { timestamp := 3000, name := FieldCurrentLocationLatitude, valueNumber := 40 }

/-- C5 counterexample: in Store.Process a latitude record arriving while
the latitude cell is filled does not force a flush and does not take
over the slot: after the three steps the cell still holds index 0, the
new record is marked for deletion, and no composite was emitted even
though a flush of the filled latitude and longitude cells would have
emitted one. -/
theorem c5_slot_collision_counterexample :
    ((Store.New [c5lat1, c5lon, c5lat3]).runSteps 3).activeLat
      = { filled := true, index := 0 } ∧
    ((Store.New [c5lat1, c5lon, c5lat3]).runSteps 3).signalsToDelete
      = [false, false, true] ∧
    ((Store.New [c5lat1, c5lon, c5lat3]).runSteps 3).addedSignals = [] := by
  refine ⟨by decide, by decide, by decide⟩

/-! Monotonicity of the drop markers and of the diagnostics, and the
slot-reference invariant, used by the stickiness and safety claims. -/

/-- Drop markers only ever grow: every index marked true stays true. -/
def DropExt (d d2 : List Bool) : Prop :=
  ∀ m : Nat, d.get? m = some true → d2.get? m = some true

theorem DropExt.rfl {d : List Bool} : DropExt d d := fun _ h => h

theorem DropExt.trans {d1 d2 d3 : List Bool}
    (h1 : DropExt d1 d2) (h2 : DropExt d2 d3) : DropExt d1 d3 :=
  fun m h => h2 m (h1 m h)

theorem setDrop_dropExt (d : List Bool) (r : Int) : DropExt d (setDrop d r) := by
  intro m h
  unfold setDrop
  by_cases hm : r.toNat = m
  · subst hm
    have hlt : r.toNat < d.length := by
      rcases List.get?_eq_some.mp h with ⟨hl, _⟩
      exact hl
    rw [List.get?_set_eq_of_lt _ hlt]
  · rw [List.get?_set_ne _ _ hm]
    exact h

/-- The four possible drop arrays produced by a flush. -/
theorem tryCreate_drop_cases (template : Signal) (signals : List Signal)
    (s : PState) :
    (tryCreateLocationSignal template signals s).drop = s.drop ∨
    (tryCreateLocationSignal template signals s).drop
      = setDrop s.drop s.lastLat ∨
    (tryCreateLocationSignal template signals s).drop
      = setDrop s.drop s.lastLon ∨
    (tryCreateLocationSignal template signals s).drop
      = setDrop (setDrop s.drop s.lastLat) s.lastLon := by
  by_cases h1 : s.lastLat ≠ -1 ∧ s.lastLon ≠ -1
  · by_cases h2 : (sigAt signals s.lastLat).valueNumber = 0 ∧
        (sigAt signals s.lastLon).valueNumber = 0
    · refine Or.inr (Or.inr (Or.inr ?_))
      simp [tryCreateLocationSignal, h1, h2]
    · refine Or.inl ?_
      simp [tryCreateLocationSignal, h1, h2]
  · by_cases h3 : s.lastLat ≠ -1
    · have h4 : s.lastLon = -1 := by
        by_contra hc
        exact h1 ⟨h3, hc⟩
      refine Or.inr (Or.inl ?_)
      simp [tryCreateLocationSignal, h1, h3, h4]
    · by_cases h4 : s.lastLon ≠ -1
      · refine Or.inr (Or.inr (Or.inl ?_))
        simp [tryCreateLocationSignal, h1, h3, h4]
      · refine Or.inl ?_
        simp [tryCreateLocationSignal, h1, h3, h4]

/-- The three possible diagnostic lists produced by a flush: unchanged,
or extended by exactly one element. -/
theorem tryCreate_errs_cases (template : Signal) (signals : List Signal)
    (s : PState) :
    (tryCreateLocationSignal template signals s).errs = s.errs ∨
    ∃ e, (tryCreateLocationSignal template signals s).errs = s.errs ++ [e] := by
  by_cases h1 : s.lastLat ≠ -1 ∧ s.lastLon ≠ -1
  · by_cases h2 : (sigAt signals s.lastLat).valueNumber = 0 ∧
        (sigAt signals s.lastLon).valueNumber = 0
    · refine Or.inr ⟨Diag.originAt s.lastTime, ?_⟩
      simp [tryCreateLocationSignal, h1, h2]
    · refine Or.inl ?_
      simp [tryCreateLocationSignal, h1, h2]
  · by_cases h3 : s.lastLat ≠ -1
    · have h4 : s.lastLon = -1 := by
        by_contra hc
        exact h1 ⟨h3, hc⟩
      refine Or.inr ⟨Diag.unpairedLatitude s.lastTime, ?_⟩
      simp [tryCreateLocationSignal, h1, h3, h4]
    · by_cases h4 : s.lastLon ≠ -1
      · refine Or.inr ⟨Diag.unpairedLongitude s.lastTime, ?_⟩
        simp [tryCreateLocationSignal, h1, h3, h4]
      · refine Or.inl ?_
        simp [tryCreateLocationSignal, h1, h3, h4]

theorem tryCreate_dropExt (template : Signal) (signals : List Signal)
    (s : PState) :
    DropExt s.drop (tryCreateLocationSignal template signals s).drop := by
  rcases tryCreate_drop_cases template signals s with h | h | h | h <;> rw [h]
  · exact DropExt.rfl
  · exact setDrop_dropExt _ _
  · exact setDrop_dropExt _ _
  · exact (setDrop_dropExt _ _).trans (setDrop_dropExt _ _)

theorem tryCreate_errs_mono (template : Signal) (signals : List Signal)
    (s : PState) {e : Diag} (h : e ∈ s.errs) :
    e ∈ (tryCreateLocationSignal template signals s).errs := by
  rcases tryCreate_errs_cases template signals s with h2 | ⟨d, h2⟩ <;> rw [h2]
  · exact h
  · exact List.mem_append_left _ h

theorem gapStage_dropExt (template : Signal) (signals : List Signal)
    (s : PState) (sig : Signal) :
    DropExt s.drop (gapStage template signals s sig).drop := by
  unfold gapStage
  split_ifs
  · exact tryCreate_dropExt template signals s
  · exact DropExt.rfl

theorem gapStage_errs_mono (template : Signal) (signals : List Signal)
    (s : PState) (sig : Signal) {e : Diag} (h : e ∈ s.errs) :
    e ∈ (gapStage template signals s sig).errs := by
  unfold gapStage
  split_ifs
  · exact tryCreate_errs_mono template signals s h
  · exact h

/-- The possible drop arrays produced by one loop iteration, relative to
the state after the gap check. -/
theorem stepP_drop_cases (now : Int) (template : Signal)
    (signals : List Signal) (s : PState) (i : Nat) :
    (stepP now template signals s i).drop
      = (gapStage template signals s (sigAt signals (Int.ofNat i))).drop ∨
    (stepP now template signals s i).drop
      = setDrop (gapStage template signals s (sigAt signals (Int.ofNat i))).drop
          (Int.ofNat i) ∨
    (stepP now template signals s i).drop
      = (tryCreateLocationSignal template signals
          (gapStage template signals s (sigAt signals (Int.ofNat i)))).drop := by
  simp only [stepP]
  split_ifs with h1 h2
  · exact Or.inr (Or.inl rfl)
  · exact Or.inr (Or.inl rfl)
  · cases hm : lastReference (sigAt signals (Int.ofNat i)).name with
    | none =>
      exact Or.inl rfl
    | some f =>
      dsimp only
      split_ifs with hcol hlt
      · cases f <;> exact Or.inr (Or.inr rfl)
      · cases f <;> exact Or.inr (Or.inr rfl)
      · cases f <;> exact Or.inl rfl
      · cases f <;> exact Or.inl rfl

/-- The possible diagnostic lists produced by one loop iteration,
relative to the state after the gap check. -/
theorem stepP_errs_cases (now : Int) (template : Signal)
    (signals : List Signal) (s : PState) (i : Nat) :
    (stepP now template signals s i).errs
      = (gapStage template signals s (sigAt signals (Int.ofNat i))).errs ∨
    (stepP now template signals s i).errs
      = (gapStage template signals s (sigAt signals (Int.ofNat i))).errs
        ++ [Diag.futureTimestamp (sigAt signals (Int.ofNat i)).name
            (sigAt signals (Int.ofNat i)).timestamp] ∨
    (stepP now template signals s i).errs
      = (tryCreateLocationSignal template signals
          (gapStage template signals s (sigAt signals (Int.ofNat i)))).errs := by
  simp only [stepP]
  split_ifs with h1 h2
  · exact Or.inr (Or.inl rfl)
  · exact Or.inl rfl
  · cases hm : lastReference (sigAt signals (Int.ofNat i)).name with
    | none =>
      exact Or.inl rfl
    | some f =>
      dsimp only
      split_ifs with hcol hlt
      · cases f <;> exact Or.inr (Or.inr rfl)
      · cases f <;> exact Or.inr (Or.inr rfl)
      · cases f <;> exact Or.inl rfl
      · cases f <;> exact Or.inl rfl

theorem stepP_dropExt (now : Int) (template : Signal) (signals : List Signal)
    (s : PState) (i : Nat) :
    DropExt s.drop (stepP now template signals s i).drop := by
  have hg := gapStage_dropExt template signals s (sigAt signals (Int.ofNat i))
  rcases stepP_drop_cases now template signals s i with h | h | h <;> rw [h]
  · exact hg
  · exact hg.trans (setDrop_dropExt _ _)
  · exact hg.trans (tryCreate_dropExt _ _ _)

theorem stepP_errs_mono (now : Int) (template : Signal)
    (signals : List Signal) (s : PState) (i : Nat) {e : Diag}
    (h : e ∈ s.errs) :
    e ∈ (stepP now template signals s i).errs := by
  have hg := gapStage_errs_mono template signals s
    (sigAt signals (Int.ofNat i)) h
  rcases stepP_errs_cases now template signals s i with h2 | h2 | h2 <;> rw [h2]
  · exact hg
  · exact List.mem_append_left _ hg
  · exact tryCreate_errs_mono _ _ _ hg

theorem runUpTo_dropExt (now : Int) (template : Signal)
    (signals : List Signal) {k k2 : Nat} (h : k ≤ k2) :
    DropExt (runUpTo now template signals k).drop
      (runUpTo now template signals k2).drop := by
  induction k2 with
  | zero =>
    have h0 : k = 0 := Nat.le_zero.mp h
    subst h0
    exact DropExt.rfl
  | succ k2 ih =>
    rcases Nat.lt_or_ge k (k2 + 1) with h2 | h2
    · have h3 : k ≤ k2 := Nat.lt_succ_iff.mp h2
      rw [runUpTo_succ]
      exact (ih h3).trans (stepP_dropExt now template signals _ k2)
    · have h0 : k = k2 + 1 := le_antisymm h h2
      subst h0
      exact DropExt.rfl

theorem runUpTo_errs_mono (now : Int) (template : Signal)
    (signals : List Signal) {k k2 : Nat} (h : k ≤ k2) {e : Diag}
    (he : e ∈ (runUpTo now template signals k).errs) :
    e ∈ (runUpTo now template signals k2).errs := by
  induction k2 with
  | zero =>
    have h0 : k = 0 := Nat.le_zero.mp h
    subst h0
    exact he
  | succ k2 ih =>
    rcases Nat.lt_or_ge k (k2 + 1) with h2 | h2
    · have h3 : k ≤ k2 := Nat.lt_succ_iff.mp h2
      rw [runUpTo_succ]
      exact stepP_errs_mono now template signals _ k2 (ih h3)
    · have h0 : k = k2 + 1 := le_antisymm h h2
      subst h0
      exact he

/-- A slot reference is either the empty sentinel or the index of an
already-processed record whose timestamp passed the future guard. -/
def refOK (now : Int) (signals : List Signal) (k : Nat) (r : Int) : Prop :=
  r = -1 ∨ ∃ m : Nat, r = (m : Int) ∧ m < k ∧
    ¬((sigAt signals (m : Int)).timestamp > now + futureAllowance)

theorem refOK_mono {now : Int} {signals : List Signal} {k k2 : Nat} {r : Int}
    (h : k ≤ k2) (h2 : refOK now signals k r) : refOK now signals k2 r := by
  rcases h2 with h2 | ⟨m, hm, hk, hf⟩
  · exact Or.inl h2
  · exact Or.inr ⟨m, hm, lt_of_lt_of_le hk h, hf⟩

theorem tryCreate_getRef (template : Signal) (signals : List Signal)
    (s : PState) (f : LocField) :
    (tryCreateLocationSignal template signals s).getRef f = -1 := by
  cases f <;> rfl

/-- The slot reference produced by one loop iteration: unchanged from
the gap-checked state, the sentinel, or the index of the current record,
which in that case passed the future guard. -/
theorem stepP_getRef_cases (now : Int) (template : Signal)
    (signals : List Signal) (s : PState) (i : Nat) (f : LocField) :
    (stepP now template signals s i).getRef f
      = (gapStage template signals s (sigAt signals (Int.ofNat i))).getRef f ∨
    (stepP now template signals s i).getRef f = -1 ∨
    ((stepP now template signals s i).getRef f = (i : Int) ∧
      ¬((sigAt signals (Int.ofNat i)).timestamp > now + futureAllowance)) := by
  simp only [stepP]
  split_ifs with h1 h2
  · cases f <;> exact Or.inl rfl
  · cases f <;> exact Or.inl rfl
  · cases hm : lastReference (sigAt signals (Int.ofNat i)).name with
    | none =>
      exact Or.inl rfl
    | some g =>
      dsimp only
      split_ifs with hcol hlt
      all_goals
        by_cases hfg : f = g
      · subst hfg
        refine Or.inr (Or.inr ⟨?_, h1⟩)
        cases f <;> rfl
      · refine Or.inr (Or.inl ?_)
        cases f <;> cases g <;> first
          | exact absurd rfl hfg
          | rfl
      · subst hfg
        refine Or.inr (Or.inr ⟨?_, h1⟩)
        cases f <;> rfl
      · refine Or.inr (Or.inl ?_)
        cases f <;> cases g <;> first
          | exact absurd rfl hfg
          | rfl
      · subst hfg
        refine Or.inr (Or.inr ⟨?_, h1⟩)
        cases f <;> rfl
      · refine Or.inl ?_
        cases f <;> cases g <;> first
          | exact absurd rfl hfg
          | rfl
      · subst hfg
        refine Or.inr (Or.inr ⟨?_, h1⟩)
        cases f <;> rfl
      · refine Or.inl ?_
        cases f <;> cases g <;> first
          | exact absurd rfl hfg
          | rfl

theorem stepP_refOK (now : Int) (template : Signal) (signals : List Signal)
    (s : PState) (k : Nat)
    (h : ∀ f, refOK now signals k (s.getRef f)) :
    ∀ f, refOK now signals (k + 1)
      ((stepP now template signals s k).getRef f) := by
  have hgap : ∀ g, refOK now signals k
      ((gapStage template signals s (sigAt signals (Int.ofNat k))).getRef g) := by
    intro g
    unfold gapStage
    split_ifs
    · rw [tryCreate_getRef]
      exact Or.inl rfl
    · exact h g
  intro f
  rcases stepP_getRef_cases now template signals s k f with h2 | h2 | ⟨h2, h3⟩
  · rw [h2]
    exact refOK_mono (Nat.le_succ k) (hgap f)
  · rw [h2]
    exact Or.inl rfl
  · rw [h2]
    exact Or.inr ⟨k, rfl, Nat.lt_succ_self k, h3⟩

theorem runUpTo_refOK (now : Int) (template : Signal)
    (signals : List Signal) :
    ∀ k f, refOK now signals k
      ((runUpTo now template signals k).getRef f) := by
  intro k
  induction k with
  | zero =>
    intro f
    rw [runUpTo_zero]
    left
    cases f <;> rfl
  | succ k ih =>
    intro f
    rw [runUpTo_succ]
    exact stepP_refOK now template signals _ k ih f

theorem sigAt_get (l : List Signal) (m : Nat) (h : m < l.length) :
    sigAt l (m : Int) = l.get ⟨m, h⟩ := by
  unfold sigAt
  rw [show ((m : Int)).toNat = m from rfl, List.get?_eq_get h]
  rfl

theorem stepP_future_effects (now : Int) (template : Signal)
    (signals : List Signal) (s : PState) (i : Nat)
    (h : (sigAt signals (i : Int)).timestamp > now + futureAllowance) :
    (stepP now template signals s i).drop
      = setDrop (gapStage template signals s (sigAt signals (i : Int))).drop
          (i : Int) ∧
    (stepP now template signals s i).errs
      = (gapStage template signals s (sigAt signals (i : Int))).errs
        ++ [Diag.futureTimestamp (sigAt signals (i : Int)).name
            (sigAt signals (i : Int)).timestamp] := by
  constructor <;> simp [stepP, h]

theorem setDrop_get_self {d : List Bool} {m : Nat} (h : m < d.length) :
    (setDrop d (m : Int)).get? m = some true := by
  unfold setDrop
  exact List.get?_set_eq_of_lt true h

/-- C7: the future-timestamp guard is sticky over the sorted pass. If
the record at sorted position i is beyond the future allowance, then any
record at position j at or after i is also beyond it, ends the pass with
its drop marker set, has a future-timestamp diagnostic recorded for it,
and no slot reference at any point of the pass designates position j, so
it is never folded into a triple. -/
theorem c7_future_guard_sticky (now : Int) (signals : List Signal)
    (i j : Nat) (hij : i ≤ j) (hj : j < (sortSignals signals).length)
    (hfi : (sigAt (sortSignals signals) (i : Int)).timestamp
      > now + futureAllowance) :
    (sigAt (sortSignals signals) (j : Int)).timestamp
      > now + futureAllowance ∧
    (processedState now signals).drop.get? j = some true ∧
    Diag.futureTimestamp (sigAt (sortSignals signals) (j : Int)).name
      (sigAt (sortSignals signals) (j : Int)).timestamp
      ∈ (processedState now signals).errs ∧
    ∀ (k : Nat) (f : LocField),
      (runUpTo now signals.headI (sortSignals signals) k).getRef f
        ≠ Int.ofNat j := by
  have hi : i < (sortSignals signals).length := lt_of_le_of_lt hij hj
  have hsorted : List.Sorted sigLE (sortSignals signals) :=
    List.sorted_insertionSort sigLE signals
  have hrel : sigLE ((sortSignals signals).get ⟨i, hi⟩)
      ((sortSignals signals).get ⟨j, hj⟩) :=
    hsorted.rel_get_of_le (Fin.mk_le_mk.mpr hij)
  have hts : ((sortSignals signals).get ⟨i, hi⟩).timestamp
      ≤ ((sortSignals signals).get ⟨j, hj⟩).timestamp := by
    rcases sigLE_iff.mp hrel with h | ⟨h, _⟩
    · exact le_of_lt h
    · exact le_of_eq h
  rw [sigAt_get _ i hi] at hfi
  have hfj : (sigAt (sortSignals signals) (j : Int)).timestamp
      > now + futureAllowance := by
    rw [sigAt_get _ j hj]
    exact lt_of_lt_of_le hfi hts
  have hps : processedState now signals =
      tryCreateLocationSignal signals.headI (sortSignals signals)
        (runUpTo now signals.headI (sortSignals signals)
          (sortSignals signals).length) := rfl
  have hstep := stepP_future_effects now signals.headI (sortSignals signals)
    (runUpTo now signals.headI (sortSignals signals) j) j hfj
  have hdlen : (runUpTo now signals.headI (sortSignals signals) j).drop.length
      = (sortSignals signals).length :=
    runUpTo_drop_length now signals.headI (sortSignals signals) j
  have hget1 : (runUpTo now signals.headI (sortSignals signals) (j + 1)).drop.get? j
      = some true := by
    rw [runUpTo_succ, hstep.1]
    apply setDrop_get_self
    rw [gapStage_drop_length, hdlen]
    exact hj
  have hgetL : (runUpTo now signals.headI (sortSignals signals)
      (sortSignals signals).length).drop.get? j = some true :=
    runUpTo_dropExt now signals.headI (sortSignals signals)
      (Nat.succ_le_of_lt hj) j hget1
  have hmem1 : Diag.futureTimestamp
      (sigAt (sortSignals signals) (j : Int)).name
      (sigAt (sortSignals signals) (j : Int)).timestamp
      ∈ (runUpTo now signals.headI (sortSignals signals) (j + 1)).errs := by
    rw [runUpTo_succ, hstep.2]
    exact List.mem_append_right _ (List.mem_singleton.mpr rfl)
  have hmemL := runUpTo_errs_mono now signals.headI (sortSignals signals)
    (Nat.succ_le_of_lt hj) hmem1
  refine ⟨hfj, ?_, ?_, ?_⟩
  · rw [hps]
    exact tryCreate_dropExt _ _ _ j hgetL
  · rw [hps]
    exact tryCreate_errs_mono _ _ _ hmemL
  · intro k f hcontra
    rcases runUpTo_refOK now signals.headI (sortSignals signals) k f with
      h0 | ⟨m, hm, _, hmf⟩
    · rw [hcontra] at h0
      have hj0 : (0 : Int) ≤ (-1 : Int) := h0 ▸ Int.natCast_nonneg j
      norm_num at hj0
    · rw [hcontra] at hm
      have hjm : j = m := Nat.cast_inj.mp hm
      subst hjm
      exact hmf hfj

/-- Future-dated speed record used by the C7 witness. -/
def c7fut : Signal :=
  { timestamp := 400000000000, name := "speed", valueNumber := 1 }

/-- Witness for C7 at a one-record input whose single record is beyond
the future allowance. -/
theorem c7_future_guard_sticky_witness :
    (sigAt (sortSignals [c7fut]) ((0 : Nat) : Int)).timestamp
      > 0 + futureAllowance ∧
    (processedState 0 [c7fut]).drop.get? 0 = some true ∧
    Diag.futureTimestamp (sigAt (sortSignals [c7fut]) ((0 : Nat) : Int)).name
      (sigAt (sortSignals [c7fut]) ((0 : Nat) : Int)).timestamp
      ∈ (processedState 0 [c7fut]).errs ∧
    (runUpTo 0 ([c7fut] : List Signal).headI (sortSignals [c7fut]) 1).getRef
      LocField.lat ≠ Int.ofNat 0 :=
  ⟨(c7_future_guard_sticky 0 [c7fut] 0 0 (Nat.le_refl 0) (by decide)
      (by decide)).1,
   (c7_future_guard_sticky 0 [c7fut] 0 0 (Nat.le_refl 0) (by decide)
      (by decide)).2.1,
   (c7_future_guard_sticky 0 [c7fut] 0 0 (Nat.le_refl 0) (by decide)
      (by decide)).2.2.1,
   (c7_future_guard_sticky 0 [c7fut] 0 0 (Nat.le_refl 0) (by decide)
      (by decide)).2.2.2 1 LocField.lat⟩

/-! The C10 family: the sentinel never reaches an array access. -/

theorem dropValue_signals (s : Store) (n : Int) :
    (s.DropValue n).signals = s.signals := by
  unfold Store.DropValue
  split_ifs <;> rfl

theorem tryFlush_signals (s : Store) : (s.TryFlush).signals = s.signals := by
  simp only [Store.TryFlush]
  split_ifs <;> simp [dropValue_signals]

theorem ensure_signals (s : Store) (t : Int) :
    (s.EnsureTimestamp t).signals = s.signals := by
  unfold Store.EnsureTimestamp
  split_ifs <;> rfl

theorem setCell_signals (s : Store) (g : LocField) (c : Cell) :
    (s.setCell g c).signals = s.signals := by
  cases g <;> rfl

theorem process_signals (s : Store) (i : Nat) :
    (Store.Process s i).signals = s.signals := by
  simp only [Store.Process]
  split_ifs with hd hg hg2
  · cases hm : lastReference (sigAt s.signals (Int.ofNat i)).name with
    | none => simp [tryFlush_signals, dropValue_signals]
    | some g =>
      dsimp only
      split_ifs <;>
        simp [ensure_signals, dropValue_signals, setCell_signals,
          tryFlush_signals]
  · cases hm : lastReference (sigAt s.signals (Int.ofNat i)).name with
    | none => simp [dropValue_signals]
    | some g =>
      dsimp only
      split_ifs <;>
        simp [ensure_signals, dropValue_signals, setCell_signals]
  · cases hm : lastReference (sigAt s.signals (Int.ofNat i)).name with
    | none => simp [tryFlush_signals]
    | some g =>
      dsimp only
      split_ifs <;>
        simp [ensure_signals, dropValue_signals, setCell_signals,
          tryFlush_signals]
  · cases hm : lastReference (sigAt s.signals (Int.ofNat i)).name with
    | none => rfl
    | some g =>
      dsimp only
      split_ifs <;>
        simp [ensure_signals, dropValue_signals, setCell_signals]

theorem runSteps_succ (s : Store) (k : Nat) :
    s.runSteps (k + 1) = (s.runSteps k).Process k := by
  unfold Store.runSteps
  rw [List.range_succ, List.foldl_append]
  rfl

theorem runSteps_signals (s : Store) : ∀ k, (s.runSteps k).signals = s.signals := by
  intro k
  induction k with
  | zero => rfl
  | succ k ih => rw [runSteps_succ, process_signals, ih]

theorem tryFlush_getCell_filled (s : Store) (f : LocField) :
    ((s.TryFlush).getCell f).filled = false := by
  cases f <;> rfl

theorem getCell_setCell_self (s : Store) (g : LocField) (c : Cell) :
    (s.setCell g c).getCell g = c := by
  cases g <;> rfl

theorem getCell_setCell_other (s : Store) (f g : LocField) (c : Cell)
    (h : f ≠ g) : (s.setCell g c).getCell f = s.getCell f := by
  cases f <;> cases g <;> simp_all [Store.setCell, Store.getCell]

/-- The three possible outcomes for a cell after one Process step:
unchanged, cleared, or holding the current index. -/
theorem process_getCell_cases (s : Store) (i : Nat) (f : LocField) :
    (Store.Process s i).getCell f = s.getCell f ∨
    ((Store.Process s i).getCell f).filled = false ∨
    ((Store.Process s i).getCell f).index = (i : Int) := by
  simp only [Store.Process]
  split_ifs with hd hg hg2
  · cases hm : lastReference (sigAt s.signals (Int.ofNat i)).name with
    | none =>
      refine Or.inr (Or.inl ?_)
      rw [tryFlush_getCell_filled]
    | some g =>
      dsimp only
      split_ifs with hfill
      · refine Or.inr (Or.inl ?_)
        rw [getCell_ensure, getCell_dropValue, tryFlush_getCell_filled]
      · by_cases hfg : f = g
        · subst hfg
          refine Or.inr (Or.inr ?_)
          rw [getCell_ensure, getCell_setCell_self]
          rfl
        · refine Or.inr (Or.inl ?_)
          rw [getCell_ensure, getCell_setCell_other _ _ _ _ hfg,
            tryFlush_getCell_filled]
  · cases hm : lastReference (sigAt s.signals (Int.ofNat i)).name with
    | none =>
      refine Or.inl ?_
      rw [getCell_dropValue]
    | some g =>
      dsimp only
      split_ifs with hfill
      · refine Or.inl ?_
        rw [getCell_ensure, getCell_dropValue, getCell_dropValue]
      · by_cases hfg : f = g
        · subst hfg
          refine Or.inr (Or.inr ?_)
          rw [getCell_ensure, getCell_setCell_self]
          rfl
        · refine Or.inl ?_
          rw [getCell_ensure, getCell_setCell_other _ _ _ _ hfg,
            getCell_dropValue]
  · cases hm : lastReference (sigAt s.signals (Int.ofNat i)).name with
    | none =>
      refine Or.inr (Or.inl ?_)
      rw [tryFlush_getCell_filled]
    | some g =>
      dsimp only
      split_ifs with hfill
      · refine Or.inr (Or.inl ?_)
        rw [getCell_ensure, getCell_dropValue, tryFlush_getCell_filled]
      · by_cases hfg : f = g
        · subst hfg
          refine Or.inr (Or.inr ?_)
          rw [getCell_ensure, getCell_setCell_self]
          rfl
        · refine Or.inr (Or.inl ?_)
          rw [getCell_ensure, getCell_setCell_other _ _ _ _ hfg,
            tryFlush_getCell_filled]
  · cases hm : lastReference (sigAt s.signals (Int.ofNat i)).name with
    | none =>
      exact Or.inl rfl
    | some g =>
      dsimp only
      split_ifs with hfill
      · refine Or.inl ?_
        rw [getCell_ensure, getCell_dropValue]
      · by_cases hfg : f = g
        · subst hfg
          refine Or.inr (Or.inr ?_)
          rw [getCell_ensure, getCell_setCell_self]
          rfl
        · refine Or.inl ?_
          rw [getCell_ensure, getCell_setCell_other _ _ _ _ hfg]

/-- A cell is empty or holds the index of an already-processed record. -/
def cellOK (k : Nat) (c : Cell) : Prop :=
  c.filled = true → ∃ m : Nat, c.index = (m : Int) ∧ m < k

theorem cellOK_mono {k k2 : Nat} {c : Cell} (h : k ≤ k2) (h2 : cellOK k c) :
    cellOK k2 c := by
  intro hf
  rcases h2 hf with ⟨m, hm, hk⟩
  exact ⟨m, hm, lt_of_lt_of_le hk h⟩

theorem process_cellOK (s : Store) (k : Nat)
    (h : ∀ f, cellOK k (s.getCell f)) :
    ∀ f, cellOK (k + 1) ((Store.Process s k).getCell f) := by
  intro f
  rcases process_getCell_cases s k f with h1 | h1 | h1
  · rw [h1]
    exact cellOK_mono (Nat.le_succ k) (h f)
  · intro hf
    rw [h1] at hf
    cases hf
  · intro _
    exact ⟨k, h1, Nat.lt_succ_self k⟩

theorem runSteps_cellOK (signals : List Signal) : ∀ k f,
    cellOK k (((Store.New signals).runSteps k).getCell f) := by
  intro k
  induction k with
  | zero =>
    intro f hf
    have hempty : ((((Store.New signals)).runSteps 0).getCell f).filled
        = false := by
      cases f <;> rfl
    rw [hempty] at hf
    cases hf
  | succ k ih =>
    intro f
    rw [runSteps_succ]
    exact process_cellOK _ k ih f

/-- C10: the empty-slot sentinel never reaches an array access. In the
ProcessSignals pass every non-sentinel slot reference designates a valid
index of the signal slice, so the guarded reads of
tryCreateLocationSignal are in bounds; Cell.Get returns the sentinel
exactly for unfilled cells and the stored index for filled ones; and in
every reachable Store state a filled cell's Get value is a valid index
of the store's unchanged signal slice, so the GetValue reads of TryFlush
are in bounds. -/
theorem c10_sentinel_never_accessed :
    (∀ (now : Int) (template : Signal) (signals : List Signal) (k : Nat)
        (f : LocField),
      k ≤ signals.length →
      (runUpTo now template signals k).getRef f ≠ -1 →
      ∃ m : Nat, (runUpTo now template signals k).getRef f = (m : Int) ∧
        m < signals.length ∧ (signals.get? m).isSome) ∧
    (∀ c : Cell, (c.Filled = false → c.Get = -1) ∧
      (c.Filled = true → c.Get = c.index)) ∧
    (∀ (signals : List Signal) (k : Nat) (f : LocField),
      k ≤ signals.length →
      (((Store.New signals).runSteps k).getCell f).Filled = true →
      ∃ m : Nat,
        (((Store.New signals).runSteps k).getCell f).Get = (m : Int) ∧
        m < signals.length ∧
        ((((Store.New signals).runSteps k).signals).get? m).isSome) := by
  refine ⟨?_, ?_, ?_⟩
  · intro now template signals k f hk hne
    rcases runUpTo_refOK now template signals k f with h0 | ⟨m, hm, hmk, _⟩
    · exact absurd h0 hne
    · have hml : m < signals.length := lt_of_lt_of_le hmk hk
      refine ⟨m, hm, hml, ?_⟩
      rw [List.get?_eq_get hml]
      rfl
  · intro c
    constructor
    · intro h
      unfold Cell.Filled at h
      unfold Cell.Get
      rw [h]
      rfl
    · intro h
      unfold Cell.Filled at h
      unfold Cell.Get
      rw [h]
      rfl
  · intro signals k f hk hfill
    have hcell := runSteps_cellOK signals k f
    unfold Cell.Filled at hfill
    rcases hcell hfill with ⟨m, hm, hmk⟩
    have hml : m < signals.length := lt_of_lt_of_le hmk hk
    refine ⟨m, ?_, hml, ?_⟩
    · unfold Cell.Get
      rw [hfill]
      exact hm
    · rw [runSteps_signals]
      show (signals.get? m).isSome = true
      rw [List.get?_eq_get hml]
      rfl

/-- Latitude record used by the C10 witness. -/
def c10lat : Signal :=
  { timestamp := 1000, name := FieldCurrentLocationLatitude, valueNumber := 5 }

/-- Witness for C10: after one step on a one-latitude input, the filled
latitude slot and the filled latitude cell both designate the valid
index zero, and Cell.Get maps a concrete empty cell to the sentinel and
a concrete filled cell to its index. -/
theorem c10_sentinel_never_accessed_witness :
    (∃ m : Nat, (runUpTo 0 ({} : Signal) [c10lat] 1).getRef LocField.lat
        = (m : Int) ∧ m < 1 ∧ (([c10lat] : List Signal).get? m).isSome) ∧
    ({ filled := false, index := 7 } : Cell).Get = -1 ∧
    ({ filled := true, index := 5 } : Cell).Get
      = ({ filled := true, index := 5 } : Cell).index ∧
    (∃ m : Nat, (((Store.New [c10lat]).runSteps 1).getCell LocField.lat).Get
        = (m : Int) ∧ m < 1 ∧
        ((((Store.New [c10lat]).runSteps 1).signals).get? m).isSome) :=
  ⟨c10_sentinel_never_accessed.1 0 {} [c10lat] 1 LocField.lat
      (by decide) (by decide),
   (c10_sentinel_never_accessed.2.1 { filled := false, index := 7 }).1
      (by decide),
   (c10_sentinel_never_accessed.2.1 { filled := true, index := 5 }).2
      (by decide),
   c10_sentinel_never_accessed.2.2 [c10lat] 1 LocField.lat
      (by decide) (by decide)⟩

end Locgen
